import Mathlib

/-!
Shallow embedding of the faff-time analysis core: slow-period detection,
recording-gap detection, duration-bucket classification, interval merging and
statistics aggregation, translated from the repository's TypeScript sources
(`core/data-analyzer.ts`, `core/time-utils.ts`, `core/analysis.ts`,
`utils/constants.ts`, `utils/gps-utils.ts`).

Modelling conventions:
- JavaScript `Date` timestamps are `Int` milliseconds (`Date.getTime`),
  an absent timestamp is `Option.none`;
- JavaScript numbers used for speeds, distances and durations are `ℚ`;
- `Math.round x` is `⌊x + 1/2⌋` (`jsRound`);
- `a || b` on numbers (falsy when `0`) is `jsOrQ`; `a ?? b` is `Option.getD`;
- the stable `Array.prototype.sort` is `List.mergeSort`, which is the
  (unique) stable sort for the same comparator.
-/

namespace Faff

/-- The six duration-bucket identifiers (`TimeRange` in `types/app-types`). -/
inductive TimeRange where
  | r2to5
  | r5to10
  | r10to30
  | r30to60
  | r1to2hours
  | over2hours
deriving Repr, DecidableEq

/-- `RANGE_LABELS` from `utils/constants.ts`. -/
def RANGE_LABELS : TimeRange → String
  | .r2to5 => "2-5 minutes"
  | .r5to10 => "5-10 minutes"
  | .r10to30 => "10-30 minutes"
  | .r30to60 => "30-60 minutes"
  | .r1to2hours => "1-2 hours"
  | .over2hours => "Over 2 hours"

/-- `SPEED_THRESHOLD = 0.75` m/s from `utils/constants.ts`. -/
def SPEED_THRESHOLD : ℚ := 3 / 4

/-- `DEFAULT_GAP_THRESHOLD_MS = 120000` from `utils/constants.ts`. -/
def DEFAULT_GAP_THRESHOLD_MS : Int := 120000

/-- `DEFAULT_SELECTED_RANGES` from `utils/constants.ts`: all six buckets in order. -/
def DEFAULT_SELECTED_RANGES : List TimeRange :=
  [.r2to5, .r5to10, .r10to30, .r30to60, .r1to2hours, .over2hours]

/-- `matchesTimeRange` from `core/time-utils.ts`: half-open bucket membership,
minutes for the four sub-hour buckets, hours for the two hour-scale ones. -/
def matchesTimeRange (range : TimeRange) (durationMinutes durationHours : ℚ) : Bool :=
  match range with
  | .r2to5 => 2 ≤ durationMinutes && durationMinutes < 5
  | .r5to10 => 5 ≤ durationMinutes && durationMinutes < 10
  | .r10to30 => 10 ≤ durationMinutes && durationMinutes < 30
  | .r30to60 => 30 ≤ durationMinutes && durationMinutes < 60
  | .r1to2hours => 1 ≤ durationHours && durationHours < 2
  | .over2hours => 2 ≤ durationHours

/-- One telemetry sample (`FitRecord` in `types/app-types`). Timestamps are
`Int` milliseconds; optional fields are `Option`. -/
structure FitRecord where
  timestamp : Option Int
  speed : Option ℚ
  enhancedSpeed : Option ℚ
  distance : Option ℚ
  positionLat : Option Int
  positionLong : Option Int
deriving Repr, DecidableEq

/-- JavaScript `Math.round`: `⌊x + 1/2⌋` (half-up, toward `+∞`). -/
def jsRound (x : ℚ) : Int := ⌊x + 1 / 2⌋

/-- JavaScript `a || b` on an optional number: `b` when `a` is absent or `0`. -/
def jsOrQ (a : Option ℚ) (b : ℚ) : ℚ :=
  match a with
  | some v => if v = 0 then b else v
  | none => b

/-- The effective speed computed at `data-analyzer.ts` line 57:
`record.enhancedSpeed || record.speed || 0`. -/
def effSpeed (record : FitRecord) : ℚ :=
  jsOrQ record.enhancedSpeed (jsOrQ record.speed 0)

/-- `SEMICIRCLE_TO_DEGREES = 180 / 2^31` from `utils/gps-utils.ts`. -/
def SEMICIRCLE_TO_DEGREES : ℚ := 180 / 2 ^ 31

/-- `toGpsPoint` from `core/data-analyzer.ts`: both coordinates must be
present and numeric, otherwise the point is unavailable. -/
def toGpsPoint (record : FitRecord) : Option (ℚ × ℚ) :=
  match record.positionLat, record.positionLong with
  | some lat, some long =>
    some ((lat : ℚ) * SEMICIRCLE_TO_DEGREES, (long : ℚ) * SEMICIRCLE_TO_DEGREES)
  | _, _ => none

/-- `convertGpsCoordinates` from `utils/gps-utils.ts`: map each record to its
converted point (or null) and keep the non-null ones. -/
def convertGpsCoordinates (records : List FitRecord) : List (ℚ × ℚ) :=
  records.filterMap toGpsPoint

/-- A recording gap (`TimestampGap` in `types/app-types`), as built by
`findTimestampGaps` in `core/data-analyzer.ts`. -/
structure TimestampGap where
  startTime : Int
  endTime : Int
  gapDuration : Int
  gapDurationMinutes : Int
  gapDurationHours : ℚ
  startDistance : ℚ
  endDistance : ℚ
  startGpsPoint : Option (ℚ × ℚ)
  endGpsPoint : Option (ℚ × ℚ)
deriving Repr, DecidableEq

/-- The unified interval shape (`SlowPeriod` in `types/app-types`): slow
periods have `isGap = false`; gaps carry the original `TimestampGap` in
`gapData`. Absent JS fields default to `false`/`none`. -/
structure SlowPeriod where
  startTime : Int
  endTime : Int
  recordCount : Nat
  startDistance : ℚ
  endDistance : ℚ
  gpsPoints : List (ℚ × ℚ)
  isGap : Bool := false
  gapData : Option TimestampGap := none
deriving Repr, DecidableEq

/-- The gap object pushed at `data-analyzer.ts` lines 206-216, for a pair of
records whose timestamps are `pt` and `ct` milliseconds. -/
def mkGap (previousRecord currentRecord : FitRecord) (pt ct : Int) : TimestampGap :=
  let timeDifference := ct - pt
  let gapDurationMinutes := jsRound ((timeDifference : ℚ) / 60000)
  { startTime := pt
    endTime := ct
    gapDuration := timeDifference
    gapDurationMinutes := gapDurationMinutes
    gapDurationHours := (gapDurationMinutes : ℚ) / 60
    startDistance := previousRecord.distance.getD 0
    endDistance := currentRecord.distance.getD 0
    startGpsPoint := toGpsPoint previousRecord
    endGpsPoint := toGpsPoint currentRecord }

/-- The loop of `findTimestampGaps` (lines 182-218): compare each record with
its predecessor; skip a pair if either timestamp is absent; emit a gap when
the difference strictly exceeds the threshold. -/
def findTimestampGapsGo (gapThreshold : Int) : FitRecord → List FitRecord → List TimestampGap
  | _, [] => []
  | previousRecord, currentRecord :: rest =>
    match previousRecord.timestamp, currentRecord.timestamp with
    | some pt, some ct =>
      if ct - pt > gapThreshold then
        mkGap previousRecord currentRecord pt ct :: findTimestampGapsGo gapThreshold currentRecord rest
      else
        findTimestampGapsGo gapThreshold currentRecord rest
    | _, _ => findTimestampGapsGo gapThreshold currentRecord rest

/-- `findTimestampGaps` from `core/data-analyzer.ts`: a non-number threshold
argument (modelled `none`) falls back to `DEFAULT_GAP_THRESHOLD_MS`. -/
def findTimestampGaps (records : List FitRecord) (threshold : Option Int) : List TimestampGap :=
  let gapThreshold := threshold.getD DEFAULT_GAP_THRESHOLD_MS
  match records with
  | [] => []
  | r :: rest => findTimestampGapsGo gapThreshold r rest

/-- `shouldBreakSequenceForTimestampGap` from `core/data-analyzer.ts`:
`false` on an empty run or when either boundary timestamp is absent. -/
def shouldBreakSequenceForTimestampGap (currentSlowSequence : List FitRecord)
    (record : FitRecord) (gapThreshold : Int) : Bool :=
  match currentSlowSequence.getLast? with
  | none => false
  | some previousRecord =>
    match record.timestamp, previousRecord.timestamp with
    | some currentTimestamp, some previousTimestamp =>
      currentTimestamp - previousTimestamp > gapThreshold
    | _, _ => false

/-- `processSlowSequence` from `core/data-analyzer.ts`: flush a slow run,
returning `none` on an empty run, a missing boundary timestamp, or a duration
matching no selected range. -/
def processSlowSequence (currentSlowSequence : List FitRecord)
    (selectedRanges : List TimeRange) : Option SlowPeriod :=
  match currentSlowSequence with
  | [] => none
  | startRecord :: rest =>
    let endRecord := rest.getLastD startRecord
    match startRecord.timestamp, endRecord.timestamp with
    | some startTimestamp, some endTimestamp =>
      let durationMinutes := ((endTimestamp - startTimestamp : Int) : ℚ) / 60000
      let durationHours := durationMinutes / 60
      if selectedRanges.any (fun range => matchesTimeRange range durationMinutes durationHours) then
        let startDistance := startRecord.distance.getD 0
        let endDistance := endRecord.distance.getD startDistance
        some { startTime := startTimestamp
               endTime := endTimestamp
               recordCount := (startRecord :: rest).length
               startDistance := startDistance
               endDistance := endDistance
               gpsPoints := convertGpsCoordinates (startRecord :: rest) }
      else none
    | _, _ => none

/-- One iteration of the `findSpeedBasedSlowPeriods` loop (lines 55-77):
state is (emitted periods, current slow run). -/
def slowStep (selectedRanges : List TimeRange) (gapThreshold : Int)
    (acc : List SlowPeriod × List FitRecord) (record : FitRecord) :
    List SlowPeriod × List FitRecord :=
  let speed := effSpeed record
  if speed < SPEED_THRESHOLD then
    if shouldBreakSequenceForTimestampGap acc.2 record gapThreshold then
      match processSlowSequence acc.2 selectedRanges with
      | some slowPeriod => (acc.1 ++ [slowPeriod], [record])
      | none => (acc.1, [record])
    else (acc.1, acc.2 ++ [record])
  else
    match processSlowSequence acc.2 selectedRanges with
    | some slowPeriod => (acc.1 ++ [slowPeriod], [])
    | none => (acc.1, [])

/-- `findSpeedBasedSlowPeriods` from `core/data-analyzer.ts`: scan the
records, then flush the final run. -/
def findSpeedBasedSlowPeriods (records : List FitRecord)
    (selectedRanges : List TimeRange) (gapThreshold : Int) : List SlowPeriod :=
  let st := records.foldl (slowStep selectedRanges gapThreshold) ([], [])
  match processSlowSequence st.2 selectedRanges with
  | some finalSlowPeriod => st.1 ++ [finalSlowPeriod]
  | none => st.1

/-- `buildGpsPointsFromGap` from `core/data-analyzer.ts`. -/
def buildGpsPointsFromGap (gap : TimestampGap) : List (ℚ × ℚ) :=
  match gap.startGpsPoint, gap.endGpsPoint with
  | some s, some e => [s, e]
  | some s, none => [s]
  | none, some e => [e]
  | none, none => []

/-- `convertGapToPeriod` from `core/data-analyzer.ts`. -/
def convertGapToPeriod (gap : TimestampGap) : SlowPeriod :=
  { startTime := gap.startTime
    endTime := gap.endTime
    recordCount := 0
    startDistance := gap.startDistance
    endDistance := gap.endDistance
    gpsPoints := buildGpsPointsFromGap gap
    isGap := true
    gapData := some gap }

/-- `findMatchingRecordingGaps` from `core/data-analyzer.ts`: keep the gaps
whose duration matches some selected range, converted to periods. -/
def findMatchingRecordingGaps (records : List FitRecord)
    (selectedRanges : List TimeRange) (gapThreshold : Int) : List SlowPeriod :=
  (findTimestampGaps records (some gapThreshold)).filterMap fun gap =>
    if selectedRanges.any (fun range =>
        matchesTimeRange range (gap.gapDurationMinutes : ℚ) gap.gapDurationHours) then
      some (convertGapToPeriod gap)
    else none

/-- `findSlowPeriodsWithRanges` from `core/data-analyzer.ts`: short-circuit on
an empty selection, else concatenate slow periods and gap periods and sort by
`startTime` (JS `Array.prototype.sort` is stable; `List.mergeSort` is the
stable sort for the same comparator). -/
def findSlowPeriodsWithRanges (records : List FitRecord)
    (selectedRanges : List TimeRange) (gapThreshold : Int) : List SlowPeriod :=
  if selectedRanges.isEmpty then []
  else
    let slowPeriods := findSpeedBasedSlowPeriods records selectedRanges gapThreshold
    let gapPeriods := findMatchingRecordingGaps records selectedRanges gapThreshold
    (slowPeriods ++ gapPeriods).mergeSort fun a b => a.startTime ≤ b.startTime

/-- The loop of `mergeNearbySlowPeriods` (part_005 lines 255-275): merge the
next period into the current one when the time between them is below the
tolerance (`1 * 60 * 1000` ms). The merged JS object has no `isGap`/`gapData`
fields, so those take the defaults. -/
def mergeNearbySlowPeriodsGo (currentPeriod : SlowPeriod) :
    List SlowPeriod → List SlowPeriod
  | [] => [currentPeriod]
  | nextPeriod :: rest =>
    if nextPeriod.startTime - currentPeriod.endTime < 1 * 60 * 1000 then
      mergeNearbySlowPeriodsGo
        { startTime := currentPeriod.startTime
          endTime := nextPeriod.endTime
          recordCount := currentPeriod.recordCount + nextPeriod.recordCount
          startDistance := currentPeriod.startDistance
          endDistance := nextPeriod.endDistance
          gpsPoints := currentPeriod.gpsPoints ++ nextPeriod.gpsPoints } rest
    else currentPeriod :: mergeNearbySlowPeriodsGo nextPeriod rest

/-- `mergeNearbySlowPeriods` from part_005: lists of length at most one are
returned unchanged. -/
def mergeNearbySlowPeriods (slowPeriods : List SlowPeriod) : List SlowPeriod :=
  match slowPeriods with
  | [] => []
  | [p] => [p]
  | p :: rest => mergeNearbySlowPeriodsGo p rest

/-- The loop of `mergeNearbyRecordingGaps` (part_005 lines 296-330): tolerance
`1 * 60 * 1000` ms; the combined `gapData` is recomputed when both sides have
one, otherwise absent. -/
def mergeNearbyRecordingGapsGo (currentPeriod : SlowPeriod) :
    List SlowPeriod → List SlowPeriod
  | [] => [currentPeriod]
  | nextPeriod :: rest =>
    if nextPeriod.startTime - currentPeriod.endTime < 1 * 60 * 1000 then
      let mergedGapData : Option TimestampGap :=
        match currentPeriod.gapData, nextPeriod.gapData with
        | some cg, some ng =>
          some { startTime := cg.startTime
                 endTime := ng.endTime
                 gapDuration := ng.endTime - cg.startTime
                 gapDurationMinutes := jsRound (((ng.endTime - cg.startTime : Int) : ℚ) / (1000 * 60))
                 gapDurationHours := (jsRound (((ng.endTime - cg.startTime : Int) : ℚ) / (1000 * 60)) : ℚ) / 60
                 startDistance := cg.startDistance
                 endDistance := ng.endDistance
                 startGpsPoint := cg.startGpsPoint
                 endGpsPoint := ng.endGpsPoint }
        | _, _ => none
      mergeNearbyRecordingGapsGo
        { startTime := currentPeriod.startTime
          endTime := nextPeriod.endTime
          recordCount := 0
          startDistance := currentPeriod.startDistance
          endDistance := nextPeriod.endDistance
          gpsPoints := currentPeriod.gpsPoints ++ nextPeriod.gpsPoints
          isGap := true
          gapData := mergedGapData } rest
    else currentPeriod :: mergeNearbyRecordingGapsGo nextPeriod rest

/-- `mergeNearbyRecordingGaps` from part_005: lists of length at most one are
returned unchanged. -/
def mergeNearbyRecordingGaps (gapPeriods : List SlowPeriod) : List SlowPeriod :=
  match gapPeriods with
  | [] => []
  | [p] => [p]
  | p :: rest => mergeNearbyRecordingGapsGo p rest

/-- One per-bucket breakdown entry (`RangeBreakdownEntry`), as built by
`calculateSlowPeriodStatistics` in `core/analysis.ts`. -/
structure RangeBreakdownEntry where
  range : TimeRange
  label : String
  count : Nat
  totalDurationSeconds : Int
deriving Repr, DecidableEq

/-- The statistics block (`SlowPeriodStats`). -/
structure SlowPeriodStats where
  slowCount : Nat
  gapCount : Nat
  totalDurationSeconds : Int
  gapDurationSeconds : Int
  rangeBreakdown : List RangeBreakdownEntry
deriving Repr, DecidableEq

/-- The per-period rounded duration `Math.max(0, Math.round((end - start) / 1000))`
used throughout `calculateSlowPeriodStatistics`. -/
def periodDurationSeconds (period : SlowPeriod) : Int :=
  max 0 (jsRound (((period.endTime - period.startTime : Int) : ℚ) / 1000))

/-- `calculateSlowPeriodStatistics` from `core/analysis.ts`. -/
def calculateSlowPeriodStatistics (slowPeriods : List SlowPeriod)
    (selectedRanges : List TimeRange) : SlowPeriodStats :=
  let slowCount := (slowPeriods.filter fun period => !period.isGap).length
  let gapCount := (slowPeriods.filter fun period => period.isGap).length
  let totalDurationSeconds :=
    slowPeriods.foldl (fun total period => total + periodDurationSeconds period) 0
  let gapDurationSeconds :=
    slowPeriods.foldl
      (fun total period =>
        if !period.isGap then total else total + periodDurationSeconds period) 0
  let rangeBreakdown := selectedRanges.map fun range =>
    let matchingPeriods := slowPeriods.filter fun period =>
      if period.isGap then false
      else
        matchesTimeRange range (((period.endTime - period.startTime : Int) : ℚ) / (1000 * 60))
          ((((period.endTime - period.startTime : Int) : ℚ) / (1000 * 60)) / 60)
    let entryTotal :=
      matchingPeriods.foldl (fun total period => total + periodDurationSeconds period) 0
    { range := range
      label := RANGE_LABELS range
      count := matchingPeriods.length
      totalDurationSeconds := entryTotal }
  { slowCount := slowCount
    gapCount := gapCount
    totalDurationSeconds := totalDurationSeconds
    gapDurationSeconds := gapDurationSeconds
    rangeBreakdown := rangeBreakdown }

/-- The spec's claimed effective-speed rule, verbatim: `enhancedSpeed` when
present and non-null, else `speed` when present, else `0`. Stated for
comparison with `effSpeed`, which embeds the code's `||` chain. -/
def claimEffSpeed (record : FitRecord) : ℚ :=
  match record.enhancedSpeed with
  | some v => v
  | none =>
    match record.speed with
    | some w => w
    | none => 0

/-- The amended effective-speed rule: `enhancedSpeed` when present and
nonzero, else `speed` when present and nonzero, else `0` (JS `||` treats a
present `0` as absent). -/
def amendedEffSpeed (record : FitRecord) : ℚ :=
  match record.enhancedSpeed with
  | some v =>
    if v ≠ 0 then v
    else
      match record.speed with
      | some w => if w ≠ 0 then w else 0
      | none => 0
  | none =>
    match record.speed with
    | some w => if w ≠ 0 then w else 0
    | none => 0

/-- A sample whose `enhancedSpeed` is present and zero while `speed` is `5`:
the code's `||` chain skips the zero `enhancedSpeed`. -/
def zeroEnhancedRecord : FitRecord :=
  { timestamp := some 0
    speed := some 5
    enhancedSpeed := some 0
    distance := none
    positionLat := none
    positionLong := none }

/-- A stationary sample at time `t` ms with no optional payload. -/
def plainRecord (t : Int) : FitRecord :=
  { timestamp := some t
    speed := some 0
    enhancedSpeed := none
    distance := none
    positionLat := none
    positionLong := none }

/-- A sample with no timestamp and no other payload. -/
def noTimestampRecord : FitRecord :=
  { timestamp := none
    speed := some 0
    enhancedSpeed := none
    distance := none
    positionLat := none
    positionLong := none }

/-- The single gap detected between `plainRecord 0` and `plainRecord 600000`. -/
def sampleGap : TimestampGap :=
  mkGap (plainRecord 0) (plainRecord 600000) 0 600000

/-- A slow period from `0` to `60000` ms, for the merger witness. -/
def samplePeriodA : SlowPeriod :=
  { startTime := 0
    endTime := 60000
    recordCount := 2
    startDistance := 0
    endDistance := 0
    gpsPoints := [] }

/-- A slow period from `180000` to `240000` ms, `120000` ms after
`samplePeriodA` ends. -/
def samplePeriodB : SlowPeriod :=
  { startTime := 180000
    endTime := 240000
    recordCount := 2
    startDistance := 0
    endDistance := 0
    gpsPoints := [] }

/-- The spec's declarative per-pair gap rule (§4.3): for a consecutive pair
of samples, emit a gap exactly when both have timestamps and the difference
strictly exceeds the threshold. Stated for comparison with the loop of
`findTimestampGaps`. -/
def specGapForPair (gapThreshold : Int) (pc : FitRecord × FitRecord) : Option TimestampGap :=
  match pc.1.timestamp, pc.2.timestamp with
  | some pt, some ct =>
    if ct - pt > gapThreshold then some (mkGap pc.1 pc.2 pt ct) else none
  | _, _ => none

theorem getLast?_cons_getLastD {α : Type} : ∀ (l : List α) (a : α),
    (a :: l).getLast? = some (l.getLastD a)
  | [], _ => rfl
  | b :: l, a => by
    rw [List.getLast?_cons_cons, getLast?_cons_getLastD l b]
    congr 1
    cases l <;> rfl

/-- C5: with an empty `selectedRanges` list the orchestrator
`findSlowPeriodsWithRanges` returns the empty list, whatever the records and
gap threshold. -/
theorem findSlowPeriodsWithRanges_empty_ranges (records : List FitRecord)
    (gapThreshold : Int) :
    findSlowPeriodsWithRanges records [] gapThreshold = [] := rfl

/-- C10: `findTimestampGaps` with a non-number threshold argument (modelled as
`none`, covering JS `null` and `undefined`) behaves exactly as with the
default threshold of `120000` ms. -/
theorem findTimestampGaps_default_threshold (records : List FitRecord) :
    findTimestampGaps records none = findTimestampGaps records (some 120000) := rfl

/-- C1 counterexample: on a sample with `enhancedSpeed = 0` and `speed = 5`
the code's effective speed (`effSpeed`, the `||` chain of line 57) is `5`,
not the `0` demanded by the claim's "enhancedSpeed when present and non-null"
rule (`claimEffSpeed`); the threshold comparison differs accordingly. -/
theorem effSpeed_claim_counterexample :
    effSpeed zeroEnhancedRecord = 5 ∧
    claimEffSpeed zeroEnhancedRecord = 0 ∧
    effSpeed zeroEnhancedRecord ≠ claimEffSpeed zeroEnhancedRecord ∧
    ¬ effSpeed zeroEnhancedRecord < SPEED_THRESHOLD ∧
    claimEffSpeed zeroEnhancedRecord < SPEED_THRESHOLD := by
  refine ⟨by decide, by decide, by decide, ?_, ?_⟩ <;>
    norm_num [effSpeed, claimEffSpeed, jsOrQ, zeroEnhancedRecord, SPEED_THRESHOLD]

/-- C1 amended: the effective speed used for the threshold comparison equals
`enhancedSpeed` when present and nonzero, else `speed` when present and
nonzero, else `0`; in particular a sample with neither speed field has
effective speed `0` and passes the strict `< SPEED_THRESHOLD` run-building
test. -/
theorem effSpeed_amended (record : FitRecord) :
    effSpeed record = amendedEffSpeed record ∧
    effSpeed { record with speed := none, enhancedSpeed := none } = 0 ∧
    effSpeed { record with speed := none, enhancedSpeed := none } < SPEED_THRESHOLD := by
  refine ⟨?_, rfl, by norm_num [effSpeed, jsOrQ, SPEED_THRESHOLD]⟩
  unfold effSpeed amendedEffSpeed jsOrQ
  cases record.enhancedSpeed <;> cases record.speed <;> simp

/-- C9: a non-empty slow run whose first or last sample lacks a timestamp is
silently discarded by `processSlowSequence` (`none`; the embedding is a total
function, so no exception is possible). -/
theorem processSlowSequence_missing_timestamp (seq : List FitRecord)
    (ranges : List TimeRange) (hne : seq ≠ [])
    (h : seq.head?.bind FitRecord.timestamp = none ∨
      seq.getLast?.bind FitRecord.timestamp = none) :
    processSlowSequence seq ranges = none := by
  match seq with
  | [] => exact absurd rfl hne
  | startRecord :: rest =>
    rw [getLast?_cons_getLastD] at h
    simp only [List.head?_cons, Option.some_bind] at h
    cases hst : startRecord.timestamp with
    | none =>
      cases het : (rest.getLastD startRecord).timestamp <;>
        simp only [processSlowSequence, hst, het]
    | some st =>
      cases het : (rest.getLastD startRecord).timestamp with
      | none => simp only [processSlowSequence, hst, het]
      | some et =>
        rcases h with h | h
        · rw [h] at hst; exact Option.noConfusion hst
        · rw [h] at het; exact Option.noConfusion het

/-- C2 counterexample: at duration `1` minute (hours `1/60`), which satisfies
`0 ≤ d`, none of the six bucket predicates holds, refuting "exactly one ...
never zero". -/
theorem bucket_partition_counterexample :
    (0 : ℚ) ≤ 1 ∧
    (DEFAULT_SELECTED_RANGES.countP fun range => matchesTimeRange range 1 (1 / 60)) = 0 ∧
    (DEFAULT_SELECTED_RANGES.countP fun range => matchesTimeRange range 1 (1 / 60)) ≠ 1 := by
  refine ⟨by norm_num, ?_, ?_⟩ <;>
    norm_num [DEFAULT_SELECTED_RANGES, List.countP_cons, List.countP_nil, matchesTimeRange]

/-- C2 amended: for every duration `d ≥ 0` in minutes (hours `d/60`), exactly
one of the six bucket predicates holds when `d ≥ 2`, and none holds when
`d < 2`; in particular never two. -/
theorem bucket_partition_amended (d : ℚ) (h : 0 ≤ d) :
    (DEFAULT_SELECTED_RANGES.countP fun range => matchesTimeRange range d (d / 60)) =
      if 2 ≤ d then 1 else 0 := by
  simp only [DEFAULT_SELECTED_RANGES, List.countP_cons, List.countP_nil, matchesTimeRange,
    Bool.and_eq_true, decide_eq_true_eq]
  rcases lt_or_le d 2 with h1 | h1
  · rw [if_neg (show ¬(2 ≤ d ∧ d < 5) by rintro ⟨a, b⟩; linarith),
      if_neg (show ¬(5 ≤ d ∧ d < 10) by rintro ⟨a, b⟩; linarith),
      if_neg (show ¬(10 ≤ d ∧ d < 30) by rintro ⟨a, b⟩; linarith),
      if_neg (show ¬(30 ≤ d ∧ d < 60) by rintro ⟨a, b⟩; linarith),
      if_neg (show ¬(1 ≤ d / 60 ∧ d / 60 < 2) by rintro ⟨a, b⟩; linarith),
      if_neg (show ¬(2 ≤ d / 60) by intro a; linarith),
      if_neg (show ¬(2 ≤ d) by linarith)]
  · rcases lt_or_le d 5 with h2 | h2
    · rw [if_pos (show 2 ≤ d ∧ d < 5 from ⟨h1, h2⟩),
        if_neg (show ¬(5 ≤ d ∧ d < 10) by rintro ⟨a, b⟩; linarith),
        if_neg (show ¬(10 ≤ d ∧ d < 30) by rintro ⟨a, b⟩; linarith),
        if_neg (show ¬(30 ≤ d ∧ d < 60) by rintro ⟨a, b⟩; linarith),
        if_neg (show ¬(1 ≤ d / 60 ∧ d / 60 < 2) by rintro ⟨a, b⟩; linarith),
        if_neg (show ¬(2 ≤ d / 60) by intro a; linarith),
        if_pos h1]
    · rcases lt_or_le d 10 with h3 | h3
      · rw [if_neg (show ¬(2 ≤ d ∧ d < 5) by rintro ⟨a, b⟩; linarith),
          if_pos (show 5 ≤ d ∧ d < 10 from ⟨h2, h3⟩),
          if_neg (show ¬(10 ≤ d ∧ d < 30) by rintro ⟨a, b⟩; linarith),
          if_neg (show ¬(30 ≤ d ∧ d < 60) by rintro ⟨a, b⟩; linarith),
          if_neg (show ¬(1 ≤ d / 60 ∧ d / 60 < 2) by rintro ⟨a, b⟩; linarith),
          if_neg (show ¬(2 ≤ d / 60) by intro a; linarith),
          if_pos (show 2 ≤ d by linarith)]
      · rcases lt_or_le d 30 with h4 | h4
        · rw [if_neg (show ¬(2 ≤ d ∧ d < 5) by rintro ⟨a, b⟩; linarith),
            if_neg (show ¬(5 ≤ d ∧ d < 10) by rintro ⟨a, b⟩; linarith),
            if_pos (show 10 ≤ d ∧ d < 30 from ⟨h3, h4⟩),
            if_neg (show ¬(30 ≤ d ∧ d < 60) by rintro ⟨a, b⟩; linarith),
            if_neg (show ¬(1 ≤ d / 60 ∧ d / 60 < 2) by rintro ⟨a, b⟩; linarith),
            if_neg (show ¬(2 ≤ d / 60) by intro a; linarith),
            if_pos (show 2 ≤ d by linarith)]
        · rcases lt_or_le d 60 with h5 | h5
          · rw [if_neg (show ¬(2 ≤ d ∧ d < 5) by rintro ⟨a, b⟩; linarith),
              if_neg (show ¬(5 ≤ d ∧ d < 10) by rintro ⟨a, b⟩; linarith),
              if_neg (show ¬(10 ≤ d ∧ d < 30) by rintro ⟨a, b⟩; linarith),
              if_pos (show 30 ≤ d ∧ d < 60 from ⟨h4, h5⟩),
              if_neg (show ¬(1 ≤ d / 60 ∧ d / 60 < 2) by rintro ⟨a, b⟩; linarith),
              if_neg (show ¬(2 ≤ d / 60) by intro a; linarith),
              if_pos (show 2 ≤ d by linarith)]
          · rcases lt_or_le d 120 with h6 | h6
            · rw [if_neg (show ¬(2 ≤ d ∧ d < 5) by rintro ⟨a, b⟩; linarith),
                if_neg (show ¬(5 ≤ d ∧ d < 10) by rintro ⟨a, b⟩; linarith),
                if_neg (show ¬(10 ≤ d ∧ d < 30) by rintro ⟨a, b⟩; linarith),
                if_neg (show ¬(30 ≤ d ∧ d < 60) by rintro ⟨a, b⟩; linarith),
                if_pos (show 1 ≤ d / 60 ∧ d / 60 < 2 from ⟨by linarith, by linarith⟩),
                if_neg (show ¬(2 ≤ d / 60) by intro a; linarith),
                if_pos (show 2 ≤ d by linarith)]
            · rw [if_neg (show ¬(2 ≤ d ∧ d < 5) by rintro ⟨a, b⟩; linarith),
                if_neg (show ¬(5 ≤ d ∧ d < 10) by rintro ⟨a, b⟩; linarith),
                if_neg (show ¬(10 ≤ d ∧ d < 30) by rintro ⟨a, b⟩; linarith),
                if_neg (show ¬(30 ≤ d ∧ d < 60) by rintro ⟨a, b⟩; linarith),
                if_neg (show ¬(1 ≤ d / 60 ∧ d / 60 < 2) by rintro ⟨a, b⟩; linarith),
                if_pos (show 2 ≤ d / 60 by linarith),
                if_pos (show 2 ≤ d by linarith)]

/-- C2 amended witness: at `d = 3` the hypothesis holds and the count is the
`2 ≤ 3` branch. -/
theorem bucket_partition_amended_witness :
    (0 : ℚ) ≤ 3 ∧
    (DEFAULT_SELECTED_RANGES.countP fun range => matchesTimeRange range 3 (3 / 60)) =
      if (2 : ℚ) ≤ 3 then 1 else 0 :=
  ⟨zero_le_three, bucket_partition_amended 3 zero_le_three⟩

theorem findTimestampGapsGo_eq_filterMap (gapThreshold : Int) :
    ∀ (prev : FitRecord) (rest : List FitRecord),
    findTimestampGapsGo gapThreshold prev rest =
      ((prev :: rest).zip rest).filterMap (specGapForPair gapThreshold)
  | _, [] => by simp [findTimestampGapsGo]
  | prev, c :: rs => by
    rw [List.zip_cons_cons, List.filterMap_cons, ← findTimestampGapsGo_eq_filterMap gapThreshold c rs]
    cases hp : prev.timestamp <;> cases hc : c.timestamp <;>
        simp only [findTimestampGapsGo, specGapForPair, hp, hc]
    split <;> rfl

/-- C3: `findTimestampGaps` emits a gap for the consecutive pair
`(records[i-1], records[i])` if and only if both samples have a timestamp and
the difference strictly exceeds the threshold; a pair with a missing
timestamp is skipped without affecting any other pair, and the output is the
in-order traversal of the consecutive pairs. -/
theorem findTimestampGaps_pairwise_spec (records : List FitRecord) (gapThreshold : Int) :
    findTimestampGaps records (some gapThreshold) =
      (records.zip records.tail).filterMap (specGapForPair gapThreshold) := by
  cases records with
  | nil => rfl
  | cons r rest =>
    simpa [findTimestampGaps] using findTimestampGapsGo_eq_filterMap gapThreshold r rest

/-- C4: every gap emitted by `findTimestampGaps` has
`gapDurationMinutes = round(Δt / 60000)` and `gapDurationHours` derived from
the already-rounded minutes value as `gapDurationMinutes / 60`. -/
theorem gapDuration_rounding (records : List FitRecord) (threshold : Option Int)
    (g : TimestampGap) (hg : g ∈ findTimestampGaps records threshold) :
    g.gapDurationMinutes = jsRound ((g.gapDuration : ℚ) / 60000) ∧
    g.gapDurationHours = (g.gapDurationMinutes : ℚ) / 60 := by
  cases records with
  | nil => exact absurd hg (List.not_mem_nil g)
  | cons r rest =>
    have hg' : g ∈ findTimestampGapsGo (threshold.getD DEFAULT_GAP_THRESHOLD_MS) r rest := hg
    rw [findTimestampGapsGo_eq_filterMap] at hg'
    rcases List.mem_filterMap.mp hg' with ⟨pc, -, hpc⟩
    revert hpc
    unfold specGapForPair
    cases h1 : pc.1.timestamp with
    | none => exact fun hpc => Option.noConfusion hpc
    | some pt =>
      cases h2 : pc.2.timestamp with
      | none => exact fun hpc => Option.noConfusion hpc
      | some ct =>
        intro hpc
        have hpc' : (if ct - pt > threshold.getD DEFAULT_GAP_THRESHOLD_MS then
            some (mkGap pc.1 pc.2 pt ct) else none) = some g := hpc
        by_cases hcond : ct - pt > threshold.getD DEFAULT_GAP_THRESHOLD_MS
        · rw [if_pos hcond] at hpc'
          rw [← Option.some.injEq .. |>.mp hpc']
          exact ⟨rfl, rfl⟩
        · rw [if_neg hcond] at hpc'
          exact Option.noConfusion hpc'

/-- C4 witness: two samples ten minutes apart with a five-minute threshold
produce one gap, whose rounded-minutes and derived-hours fields satisfy the
theorem. -/
theorem gapDuration_rounding_witness :
    sampleGap ∈ findTimestampGaps [plainRecord 0, plainRecord 600000] (some 300000) ∧
    sampleGap.gapDurationMinutes = jsRound ((sampleGap.gapDuration : ℚ) / 60000) ∧
    sampleGap.gapDurationHours = (sampleGap.gapDurationMinutes : ℚ) / 60 := by
  have hmem : sampleGap ∈ findTimestampGaps [plainRecord 0, plainRecord 600000] (some 300000) := by
    have h : findTimestampGaps [plainRecord 0, plainRecord 600000] (some 300000) = [sampleGap] := rfl
    rw [h]
    exact List.mem_singleton.mpr rfl
  exact ⟨hmem, (gapDuration_rounding _ _ _ hmem).1, (gapDuration_rounding _ _ _ hmem).2⟩

theorem foldl_add_eq_sum_map {α : Type} (f : α → Int) : ∀ (l : List α) (n : Int),
    l.foldl (fun total x => total + f x) n = n + (l.map f).sum
  | [], n => by simp
  | x :: l, n => by
    rw [List.foldl_cons, foldl_add_eq_sum_map f l (n + f x), List.map_cons, List.sum_cons]
    ring

/-- C8: the statistics aggregator returns one `rangeBreakdown` entry per
selected bucket, in selection order with duplicates kept; each entry's
`count` is the number of non-gap intervals matching the bucket and its
`totalDurationSeconds` is the sum of their per-interval rounded (and
0-clamped) second durations; unmatched buckets yield `count = 0` and
`totalDurationSeconds = 0` via the empty filter. -/
theorem rangeBreakdown_spec (slowPeriods : List SlowPeriod)
    (selectedRanges : List TimeRange) :
    (calculateSlowPeriodStatistics slowPeriods selectedRanges).rangeBreakdown =
      selectedRanges.map fun range =>
        { range := range
          label := RANGE_LABELS range
          count := (slowPeriods.filter fun period =>
            !period.isGap &&
              matchesTimeRange range (((period.endTime - period.startTime : Int) : ℚ) / (1000 * 60))
                ((((period.endTime - period.startTime : Int) : ℚ) / (1000 * 60)) / 60)).length
          totalDurationSeconds := ((slowPeriods.filter fun period =>
            !period.isGap &&
              matchesTimeRange range (((period.endTime - period.startTime : Int) : ℚ) / (1000 * 60))
                ((((period.endTime - period.startTime : Int) : ℚ) / (1000 * 60)) / 60)).map
              periodDurationSeconds).sum } := by
  simp only [calculateSlowPeriodStatistics]
  refine List.map_congr_left fun range _ => ?_
  have hfilter : (slowPeriods.filter fun period =>
      if period.isGap then false
      else
        matchesTimeRange range (((period.endTime - period.startTime : Int) : ℚ) / (1000 * 60))
          ((((period.endTime - period.startTime : Int) : ℚ) / (1000 * 60)) / 60)) =
      slowPeriods.filter fun period =>
        !period.isGap &&
          matchesTimeRange range (((period.endTime - period.startTime : Int) : ℚ) / (1000 * 60))
            ((((period.endTime - period.startTime : Int) : ℚ) / (1000 * 60)) / 60) := by
    refine List.filter_congr fun period _ => ?_
    cases hp : period.isGap <;> simp [hp]
  rw [hfilter, foldl_add_eq_sum_map, zero_add]

/-- The comparator used by the orchestrator's final sort is transitive. -/
theorem startTimeLe_trans : ∀ a b c : SlowPeriod,
    (fun a b : SlowPeriod => decide (a.startTime ≤ b.startTime)) a b →
    (fun a b : SlowPeriod => decide (a.startTime ≤ b.startTime)) b c →
    (fun a b : SlowPeriod => decide (a.startTime ≤ b.startTime)) a c := by
  intro a b c hab hbc
  simp only [decide_eq_true_eq] at hab hbc ⊢
  omega

/-- The comparator used by the orchestrator's final sort is total. -/
theorem startTimeLe_total : ∀ a b : SlowPeriod,
    (fun a b : SlowPeriod => decide (a.startTime ≤ b.startTime)) a b ||
      (fun a b : SlowPeriod => decide (a.startTime ≤ b.startTime)) b a := by
  intro a b
  simp only [Bool.or_eq_true, decide_eq_true_eq]
  omega

/-- Stability of the final sort, filter form: the subsequence of periods at
any fixed `startTime` is unchanged by `mergeSort` under the `startTime`
comparator. -/
theorem filter_startTime_mergeSort (l : List SlowPeriod) (v : Int) :
    ((l.mergeSort fun a b => a.startTime ≤ b.startTime).filter fun p => p.startTime = v) =
      l.filter fun p => p.startTime = v := by
  have hpw : (l.filter fun p => p.startTime = v).Pairwise
      (fun a b : SlowPeriod => decide (a.startTime ≤ b.startTime) = true) := by
    refine List.pairwise_of_forall_mem_list fun a ha b hb => ?_
    have ha' := (List.mem_filter.mp ha).2
    have hb' := (List.mem_filter.mp hb).2
    simp only [decide_eq_true_eq] at ha' hb' ⊢
    omega
  have hc : List.Sublist (l.filter fun p => p.startTime = v)
      (l.mergeSort fun a b => a.startTime ≤ b.startTime) :=
    List.sublist_mergeSort startTimeLe_trans startTimeLe_total hpw (List.filter_sublist l)
  have hfc := hc.filter fun p => p.startTime = v
  rw [List.filter_filter] at hfc
  have hself : (l.filter fun p : SlowPeriod =>
      decide (p.startTime = v) && decide (p.startTime = v)) =
      l.filter fun p => p.startTime = v := by
    refine List.filter_congr fun p _ => ?_
    rw [Bool.and_self]
  rw [hself] at hfc
  have hperm : ((l.mergeSort fun a b => a.startTime ≤ b.startTime).filter
      fun p => p.startTime = v).Perm (l.filter fun p => p.startTime = v) :=
    (List.mergeSort_perm l _).filter _
  exact (hfc.eq_of_length hperm.length_eq.symm).symm

/-- C6: with a non-empty selection, the orchestrator's output is a
permutation of slow periods followed by gap periods, is non-decreasing in
`startTime`, and — stability of the sort — its subsequence at any fixed
`startTime` is exactly the slow periods at that instant followed by the gap
periods at it. -/
theorem findSlowPeriodsWithRanges_sorted_stable (records : List FitRecord)
    (selectedRanges : List TimeRange) (gapThreshold : Int) (v : Int)
    (h : selectedRanges ≠ []) :
    (findSlowPeriodsWithRanges records selectedRanges gapThreshold).Perm
        (findSpeedBasedSlowPeriods records selectedRanges gapThreshold ++
          findMatchingRecordingGaps records selectedRanges gapThreshold) ∧
    (findSlowPeriodsWithRanges records selectedRanges gapThreshold).Pairwise
        (fun a b => a.startTime ≤ b.startTime) ∧
    ((findSlowPeriodsWithRanges records selectedRanges gapThreshold).filter
        fun p => p.startTime = v) =
      ((findSpeedBasedSlowPeriods records selectedRanges gapThreshold).filter
          fun p => p.startTime = v) ++
        ((findMatchingRecordingGaps records selectedRanges gapThreshold).filter
          fun p => p.startTime = v) := by
  have hne : selectedRanges.isEmpty = false := by
    cases selectedRanges with
    | nil => exact absurd rfl h
    | cons a l => rfl
  have hout : findSlowPeriodsWithRanges records selectedRanges gapThreshold =
      (findSpeedBasedSlowPeriods records selectedRanges gapThreshold ++
        findMatchingRecordingGaps records selectedRanges gapThreshold).mergeSort
        fun a b => a.startTime ≤ b.startTime := by
    simp only [findSlowPeriodsWithRanges, hne, Bool.false_eq_true, if_false]
  refine ⟨?_, ?_, ?_⟩
  · rw [hout]
    exact List.mergeSort_perm _ _
  · rw [hout]
    exact (List.sorted_mergeSort startTimeLe_trans startTimeLe_total _).imp
      fun hab => of_decide_eq_true hab
  · rw [hout, filter_startTime_mergeSort, List.filter_append]

/-- C6 witness: instantiated with no records, the full default selection, the
default threshold and tie value 0. -/
theorem findSlowPeriodsWithRanges_sorted_stable_witness :
    (findSlowPeriodsWithRanges [] DEFAULT_SELECTED_RANGES 120000).Perm
        (findSpeedBasedSlowPeriods [] DEFAULT_SELECTED_RANGES 120000 ++
          findMatchingRecordingGaps [] DEFAULT_SELECTED_RANGES 120000) ∧
    (findSlowPeriodsWithRanges [] DEFAULT_SELECTED_RANGES 120000).Pairwise
        (fun a b => a.startTime ≤ b.startTime) ∧
    ((findSlowPeriodsWithRanges [] DEFAULT_SELECTED_RANGES 120000).filter
        fun p => p.startTime = 0) =
      ((findSpeedBasedSlowPeriods [] DEFAULT_SELECTED_RANGES 120000).filter
          fun p => p.startTime = 0) ++
        ((findMatchingRecordingGaps [] DEFAULT_SELECTED_RANGES 120000).filter
          fun p => p.startTime = 0) :=
  findSlowPeriodsWithRanges_sorted_stable [] DEFAULT_SELECTED_RANGES 120000 0 (by decide)

theorem mergeNearbySlowPeriodsGo_sep : ∀ (rest : List SlowPeriod) (current : SlowPeriod),
    List.Chain' (fun a b => 60000 ≤ b.startTime - a.endTime) (current :: rest) →
    mergeNearbySlowPeriodsGo current rest = current :: rest
  | [], _, _ => rfl
  | next :: rest, current, h => by
    have h1 : 60000 ≤ next.startTime - current.endTime := (List.chain'_cons.mp h).1
    have h2 := (List.chain'_cons.mp h).2
    simp only [mergeNearbySlowPeriodsGo]
    rw [if_neg (by omega : ¬ next.startTime - current.endTime < 1 * 60 * 1000),
      mergeNearbySlowPeriodsGo_sep rest next h2]

theorem mergeNearbyRecordingGapsGo_sep : ∀ (rest : List SlowPeriod) (current : SlowPeriod),
    List.Chain' (fun a b => 60000 ≤ b.startTime - a.endTime) (current :: rest) →
    mergeNearbyRecordingGapsGo current rest = current :: rest
  | [], _, _ => rfl
  | next :: rest, current, h => by
    have h1 : 60000 ≤ next.startTime - current.endTime := (List.chain'_cons.mp h).1
    have h2 := (List.chain'_cons.mp h).2
    simp only [mergeNearbyRecordingGapsGo]
    rw [if_neg (by omega : ¬ next.startTime - current.endTime < 1 * 60 * 1000),
      mergeNearbyRecordingGapsGo_sep rest next h2]

/-- C7: both interval mergers are the identity on a chronologically sorted
list whose consecutive intervals are at least the 60000 ms tolerance apart;
empty and single-element lists (vacuously separated) are returned unchanged. -/
theorem merge_idempotent (ps : List SlowPeriod)
    (hsorted : ps.Pairwise fun a b => a.startTime ≤ b.startTime)
    (hsep : ps.Chain' fun a b => 60000 ≤ b.startTime - a.endTime) :
    mergeNearbySlowPeriods ps = ps ∧ mergeNearbyRecordingGaps ps = ps := by
  match ps with
  | [] => exact ⟨rfl, rfl⟩
  | [p] => exact ⟨rfl, rfl⟩
  | p :: q :: rest =>
    exact ⟨mergeNearbySlowPeriodsGo_sep _ _ hsep, mergeNearbyRecordingGapsGo_sep _ _ hsep⟩

/-- C7 witness: two sorted periods 120000 ms apart are left unchanged by both
mergers. -/
theorem merge_idempotent_witness :
    mergeNearbySlowPeriods [samplePeriodA, samplePeriodB] = [samplePeriodA, samplePeriodB] ∧
    mergeNearbyRecordingGaps [samplePeriodA, samplePeriodB] = [samplePeriodA, samplePeriodB] :=
  merge_idempotent [samplePeriodA, samplePeriodB] (by decide)
    (by simp [List.chain'_cons, samplePeriodA, samplePeriodB])

/-- C9 witness: a singleton run whose only sample lacks a timestamp is
discarded. -/
theorem processSlowSequence_missing_timestamp_witness :
    [noTimestampRecord] ≠ ([] : List FitRecord) ∧
    processSlowSequence [noTimestampRecord] DEFAULT_SELECTED_RANGES = none :=
  ⟨List.cons_ne_nil _ _,
    processSlowSequence_missing_timestamp [noTimestampRecord] DEFAULT_SELECTED_RANGES
      (List.cons_ne_nil _ _) (Or.inl rfl)⟩

end Faff
